import Mathlib

/-!
Verification of the pattern-classification core of the tushareAndAiAnalysis
repository (files PatternAnalysis/pattern_model.py and
PatternAnalysis/feature_engineering.py) against its specification.

The Python code computes with IEEE doubles over numpy arrays; the embedding
models the arithmetic exactly over `ℚ`.  Two systematic conventions are used
and justified where they matter:

* numpy's `np.std` takes a square root, which has no rational value.  Wherever
  the source merely threshold-compares a `std/mean` quantity, the comparison is
  embedded as the algebraically equivalent comparison of the variance against
  the squared threshold; bridging lemmas (over `ℝ`, with `Real.sqrt`) prove the
  equivalence, so the detectors' decisions are exactly the source's decisions.
* `ℚ` division by zero yields 0 where numpy would produce `inf`/`NaN`.  All
  places where this matters are noted in the relevant doc comments; no claim
  settled in this file depends on such a value.

Python's `int(n * 0.3)`, `int(n * 0.6)`, `int(n * 0.7)`, `int(n * (1 - 0.3))`
and `int(len(x) / 3)` are modelled as the exact floors `3*n/10`, `6*n/10`,
`7*n/10`, `7*n/10` and `n/3` (natural division): the float literals 0.3, 0.6,
0.7 round below their exact values, and for every series length that fits in a
double the rounding error of the product is below half an ulp at the integer
boundary, so truncation agrees with the exact floor.
-/

set_option maxRecDepth 40000
set_option maxHeartbeats 2000000

attribute [local semireducible] Rat.add Rat.mul Rat.inv Rat.sub Rat.ofScientific

/-- Epsilon guard `1e-8` used by the source for mean-denominators. -/
def eps : ℚ := 1 / 100000000

/-- Mean of a list of rationals, `np.mean`; the empty list gives 0 (numpy gives
`NaN`; never consumed on an empty list by any decision settled here). -/
def meanQ (l : List ℚ) : ℚ := l.sum / l.length

/-- Population variance of a list, the square of `np.std` (numpy default
`ddof=0`). -/
def varQ (l : List ℚ) : ℚ := meanQ (l.map (fun x => (x - meanQ l) ^ 2))

/-- First element, `xs[0]`; 0 for the empty list (numpy would raise). -/
def headQ (l : List ℚ) : ℚ := l.headD 0

/-- Last element, `xs[-1]`; 0 for the empty list (numpy would raise). -/
def lastQ (l : List ℚ) : ℚ := l.getLast?.getD 0

/-- Maximum of a list, `np.max`; 0 for the empty list (numpy would raise). -/
def maxQ (l : List ℚ) : ℚ := l.foldl max (l.headD 0)

/-- Minimum of a list, `np.min`; 0 for the empty list (numpy would raise). -/
def minQ (l : List ℚ) : ℚ := l.foldl min (l.headD 0)

/-- Day-over-day differences, `np.diff`. -/
def diffsQ (l : List ℚ) : List ℚ := List.zipWith (fun a b => b - a) l l.tail

/-- Number of strictly positive day-over-day changes,
`np.sum(np.diff(closes) > 0)`. -/
def upDaysQ (l : List ℚ) : ℕ := (diffsQ l).countP (fun d => decide (0 < d))

/-- Index list `0, 1, ..., n-1` as rationals, `np.arange`. -/
def rangeQ (n : ℕ) : List ℚ := (List.range n).map (fun i => (i : ℚ))

/-- Ordinary least-squares slope of `ys` against index `0..n-1`: the slope
returned by both `np.polyfit(x, ys, 1)` and `np.linalg.lstsq`.  The degenerate
denominator (fewer than two points) gives 0 in `ℚ`. -/
def olsSlope (ys : List ℚ) : ℚ :=
  let n : ℚ := ys.length
  let xs := rangeQ ys.length
  let sx := xs.sum
  let sy := ys.sum
  let sxy := (List.zipWith (· * ·) xs ys).sum
  let sxx := (xs.map (fun x => x * x)).sum
  (n * sxy - sx * sy) / (n * sxx - sx * sx)

/-- Leading coefficient of the least-squares quadratic fit
`np.polyfit(x, ys, 2)[0]`, by Cramer's rule on the normal equations.  The
degenerate case (singular normal matrix, fewer than three distinct points)
gives 0 in `ℚ`. -/
def quadCoeff (ys : List ℚ) : ℚ :=
  let xs := rangeQ ys.length
  let s0 : ℚ := ys.length
  let s1 := xs.sum
  let s2 := (xs.map (fun x => x ^ 2)).sum
  let s3 := (xs.map (fun x => x ^ 3)).sum
  let s4 := (xs.map (fun x => x ^ 4)).sum
  let t0 := ys.sum
  let t1 := (List.zipWith (· * ·) xs ys).sum
  let t2 := (List.zipWith (fun x y => x ^ 2 * y) xs ys).sum
  let detM := s4 * (s2 * s0 - s1 * s1) - s3 * (s3 * s0 - s1 * s2)
      + s2 * (s3 * s1 - s2 * s2)
  let detA := t2 * (s2 * s0 - s1 * s1) - s3 * (t1 * s0 - t0 * s1)
      + s2 * (t1 * s1 - t0 * s2)
  detA / detM

/-- Insert into a sorted list keeping ascending order. -/
def insertQ (x : ℚ) : List ℚ → List ℚ
  | [] => [x]
  | y :: ys => if x < y then x :: y :: ys else y :: insertQ x ys

/-- Ascending insertion sort, modelling `np.sort`. -/
def sortQ : List ℚ → List ℚ
  | [] => []
  | x :: xs => insertQ x (sortQ xs)

/-- Percentile with numpy's default linear interpolation:
position `q/100 * (n-1)` between the sorted order statistics. -/
def percentileQ (l : List ℚ) (q : ℚ) : ℚ :=
  let s := sortQ l
  let n := s.length
  if n = 0 then 0 else
    let pos : ℚ := q / 100 * ((n : ℚ) - 1)
    let i : ℕ := pos.floor.toNat
    let frac : ℚ := pos - (i : ℚ)
    if i + 1 < n then s.getD i 0 + frac * (s.getD (i + 1) 0 - s.getD i 0)
    else s.getD i 0

/-- Index of the first occurrence of the maximum, `np.argmax`; 0 on the empty
list (numpy would raise). -/
def argmaxQ (l : List ℚ) : ℕ :=
  (List.range l.length).foldl
    (fun b i => if l.getD b 0 < l.getD i 0 then i else b) 0

/-- Peak test of `scipy.signal.argrelextrema(closes, np.greater, order=w)` at
index `i`: scipy compares against the `clip`-mode shifted arrays, so `closes[i]`
must be strictly greater than `closes[max(i-k,0)]` and `closes[min(i+k,n-1)]`
for every `1 ≤ k ≤ w` (the two endpoints compare against themselves and are
never extrema). -/
def isPeakAt (l : List ℚ) (w i : ℕ) : Bool :=
  (List.range w).all fun k =>
    decide (l.getD (i - (k + 1)) 0 < l.getD i 0) &&
    decide (l.getD (min (i + (k + 1)) (l.length - 1)) 0 < l.getD i 0)

/-- Valley test, `argrelextrema(closes, np.less, order=w)`, clip mode. -/
def isValleyAt (l : List ℚ) (w i : ℕ) : Bool :=
  (List.range w).all fun k =>
    decide (l.getD i 0 < l.getD (i - (k + 1)) 0) &&
    decide (l.getD i 0 < l.getD (min (i + (k + 1)) (l.length - 1)) 0)

/-- Indices of the local maxima under window `w`. -/
def peakIdx (l : List ℚ) (w : ℕ) : List ℕ :=
  (List.range l.length).filter (isPeakAt l w)

/-- Indices of the local minima under window `w`. -/
def valleyIdx (l : List ℚ) (w : ℕ) : List ℕ :=
  (List.range l.length).filter (isValleyAt l w)

/-- Stable insertion step for an index argsort: index `i` goes before `j`
exactly when its key is strictly smaller, so equal keys keep their original
(ascending-index) order, determinizing `np.argsort`. -/
def insertIdxBy (key : ℕ → ℚ) (i : ℕ) : List ℕ → List ℕ
  | [] => [i]
  | j :: js => if key i < key j then i :: j :: js else j :: insertIdxBy key i js

/-- Stable ascending argsort of `0..n-1` by `key`, modelling `np.argsort`. -/
def argsortIdx (key : ℕ → ℚ) : List ℕ → List ℕ
  | [] => []
  | i :: is => insertIdxBy key i (argsortIdx key is)

/-- Python slice `xs[-k:]`: the last `k` elements, except that `k = 0` denotes
the whole list (`xs[-0:]` is `xs[0:]`). -/
def takeLastPy (k : ℕ) (l : List ℚ) : List ℚ :=
  if k = 0 then l else l.drop (l.length - k)

/-- Last `k` elements of a list (used where the source slices `xs[-k:]` with
`k` guaranteed positive, e.g. rolling windows). -/
def lastN (k : ℕ) (l : List ℚ) : List ℚ := l.drop (l.length - k)

/-- One daily OHLCV bar of the PriceSeries.  The `vol` column is modelled as
always present; a DataFrame without it behaves identically to one whose `vol`
column is identically zero (both normalize to an all-zero volume block). -/
structure Bar where
  close : ℚ
  high : ℚ
  low : ℚ
  vol : ℚ := 0
deriving DecidableEq

/-- Close column, `df['close'].values`. -/
def closesOf (df : List Bar) : List ℚ := df.map Bar.close

/-- High column, `df['high'].values`. -/
def highsOf (df : List Bar) : List ℚ := df.map Bar.high

/-- Low column, `df['low'].values`. -/
def lowsOf (df : List Bar) : List ℚ := df.map Bar.low

/-- Volume column, `df['vol'].values`. -/
def volsOf (df : List Bar) : List ℚ := df.map Bar.vol

/-- PatternType: the closed enumeration of the 14 categories
(`class PatternType(IntEnum)`). -/
inductive PatternType where
  | SINGLE_UP
  | SINGLE_DOWN
  | ASC_TRIANGLE
  | DESC_TRIANGLE
  | SYM_TRIANGLE
  | CUP_HANDLE
  | HEAD_SHOULDER_TOP
  | HEAD_SHOULDER_BOTTOM
  | ROUND_TOP
  | ROUND_BOTTOM
  | ASC_WEDGE
  | DESC_WEDGE
  | RECTANGLE
  | OTHER
deriving DecidableEq

/-- Integer codes of the IntEnum members. -/
def PatternType.code : PatternType → ℕ
  | .SINGLE_UP => 1
  | .SINGLE_DOWN => 2
  | .ASC_TRIANGLE => 3
  | .DESC_TRIANGLE => 4
  | .SYM_TRIANGLE => 5
  | .CUP_HANDLE => 6
  | .HEAD_SHOULDER_TOP => 7
  | .HEAD_SHOULDER_BOTTOM => 8
  | .ROUND_TOP => 9
  | .ROUND_BOTTOM => 10
  | .ASC_WEDGE => 12
  | .DESC_WEDGE => 13
  | .RECTANGLE => 14
  | .OTHER => 11

/-- All members of the enumeration. -/
def PatternType.all : List PatternType :=
  [.SINGLE_UP, .SINGLE_DOWN, .ASC_TRIANGLE, .DESC_TRIANGLE, .SYM_TRIANGLE,
   .CUP_HANDLE, .HEAD_SHOULDER_TOP, .HEAD_SHOULDER_BOTTOM, .ROUND_TOP,
   .ROUND_BOTTOM, .ASC_WEDGE, .DESC_WEDGE, .RECTANGLE, .OTHER]

/-- PatternFeatures (`@dataclass PatternFeatures`).  The Python fields
`volatility` and `consolidation_ratio` involve `np.std` (a square root) and so
have no rational value; they are represented by the rational data that
determines them: `volatility = √varClose / meanEps` and
`consolidation_ratio = 1 - √varDetrended / (√varClose + 1e-8)`.  The only
downstream consumer of either is `detect_round_pattern`'s threshold test on
`volatility`, embedded as the equivalent squared comparison (see
`roundVolGate` and its bridging lemma). -/
structure PatternFeatures where
  trendSlope : ℚ
  meanEps : ℚ
  varClose : ℚ
  varDetrended : ℚ
  priceRange : ℚ
  peakCount : ℕ
  valleyCount : ℕ
  peakRel : ℚ
  valleyRel : ℚ
  symmetryScore : ℚ
deriving DecidableEq

/-- Arbitrary features value (used only to instantiate theorems whose
conclusion does not depend on the feature fields). -/
def dummyFeatures : PatternFeatures := ⟨0, 0, 0, 0, 0, 0, 0, 0, 0, 0⟩

/-- extract_features: None for fewer than 10 bars, otherwise the nine
statistics.  `slope` is the least-squares slope of the closes; `detrended`
subtracts the line `slope*x + closes[0]` (the source uses `closes[0]`, not the
fitted intercept). -/
def extractFeatures (df : List Bar) : Option PatternFeatures :=
  if df.length < 10 then none else
  let closes := closesOf df
  let n := closes.length
  let m := meanQ closes
  let slope := olsSlope closes
  let window := max 3 (n / 20)
  let pIdx := peakIdx closes window
  let vIdx := valleyIdx closes window
  let firstHalf := closes.take (n / 2)
  let secondHalf := closes.drop (n / 2)
  let detrended := List.zipWith (fun x c => c - (slope * x + headQ closes)) (rangeQ n) closes
  some
    { trendSlope := slope / (m + eps)
      meanEps := m + eps
      varClose := varQ closes
      varDetrended := varQ detrended
      priceRange := (maxQ closes - minQ closes) / (m + eps)
      peakCount := pIdx.length
      valleyCount := vIdx.length
      peakRel := if pIdx.length ≠ 0 then maxQ (pIdx.map (closes.getD · 0)) / (m + eps) else 0
      valleyRel := if vIdx.length ≠ 0 then minQ (vIdx.map (closes.getD · 0)) / (m + eps) else 0
      symmetryScore := 1 - |meanQ firstHalf - meanQ secondHalf| / (m + eps) }

/-- Overall return `(closes[-1] - closes[0]) / closes[0]` (note: the source
divides by the raw first close, with no epsilon guard). -/
def totalReturnQ (closes : List ℚ) : ℚ := (lastQ closes - headQ closes) / headQ closes

/-- Normalized least-squares slope `slope / (np.mean(xs) + 1e-8)`, the form
shared by the single-trend, triangle, wedge and rectangle detectors. -/
def slopeOverMean (xs : List ℚ) : ℚ := olsSlope xs / (meanQ xs + eps)

/-- Maximum drawdown of the single-trend detector:
`(max - min) / max if max > 0 else 0` (a conditional guard, not an epsilon). -/
def stMaxDrawdown (closes : List ℚ) : ℚ :=
  if 0 < maxQ closes then (maxQ closes - minQ closes) / maxQ closes else 0

/-- Up-day share `up_days / (n - 1) if n > 1 else 0` of the single-trend
detector. -/
def stUpFrac (closes : List ℚ) : ℚ :=
  if 1 < closes.length then (upDaysQ closes : ℚ) / ((closes.length - 1 : ℕ) : ℚ) else 0

/-- Recent window `closes[int(n * (1 - 0.3)):]` of the single-trend
detector. -/
def stRecent (closes : List ℚ) : List ℚ := closes.drop (7 * closes.length / 10)

/-- Recent-window return (again dividing by the raw first element of the
window, no epsilon). -/
def stRecentReturn (closes : List ℚ) : ℚ :=
  if 1 < (stRecent closes).length then
    (lastQ (stRecent closes) - headQ (stRecent closes)) / headQ (stRecent closes)
  else 0

/-- Single-trend UP condition 1. -/
def stCond1 (closes : List ℚ) : Prop :=
  totalReturnQ closes > 0.08 ∧ slopeOverMean closes > 0.02 ∧
  stMaxDrawdown closes < 0.50 ∧ stUpFrac closes > 0.45

instance (closes : List ℚ) : Decidable (stCond1 closes) := by unfold stCond1; infer_instance
/-- Single-trend UP condition 2. -/
def stCond2 (closes : List ℚ) : Prop :=
  totalReturnQ closes > 0.15 ∧ slopeOverMean closes > 0.015 ∧ stUpFrac closes > 0.40

instance (closes : List ℚ) : Decidable (stCond2 closes) := by unfold stCond2; infer_instance
/-- Single-trend UP condition 3. -/
def stCond3 (closes : List ℚ) : Prop :=
  stRecentReturn closes > 0.10 ∧ totalReturnQ closes > 0.05 ∧
  slopeOverMean closes > 0.01 ∧ stUpFrac closes > 0.45

instance (closes : List ℚ) : Decidable (stCond3 closes) := by unfold stCond3; infer_instance
/-- Single-trend UP condition 4. -/
def stCond4 (closes : List ℚ) : Prop :=
  totalReturnQ closes > 0.25 ∧ slopeOverMean closes > 0.01 ∧ stUpFrac closes > 0.35

instance (closes : List ℚ) : Decidable (stCond4 closes) := by unfold stCond4; infer_instance
/-- Single-trend DOWN condition 1. -/
def stDown1 (closes : List ℚ) : Prop :=
  totalReturnQ closes < -0.08 ∧ slopeOverMean closes < -0.02 ∧
  stMaxDrawdown closes < 0.50 ∧ stUpFrac closes < 0.45

instance (closes : List ℚ) : Decidable (stDown1 closes) := by unfold stDown1; infer_instance
/-- Single-trend DOWN condition 2. -/
def stDown2 (closes : List ℚ) : Prop :=
  totalReturnQ closes < -0.15 ∧ slopeOverMean closes < -0.015 ∧ stUpFrac closes < 0.40

instance (closes : List ℚ) : Decidable (stDown2 closes) := by unfold stDown2; infer_instance
/-- detect_single_trend.  The source also computes an R-squared value that
feeds no condition; it is omitted here.  The `r_squared` aside, every local
quantity is one of the shared definitions above. -/
def detectSingleTrend (df : List Bar) (f : Option PatternFeatures) : Option PatternType :=
  match f with
  | none => none
  | some _ =>
    if df = [] then none else
    let closes := closesOf df
    if stCond1 closes ∨ stCond2 closes ∨ stCond3 closes ∨ stCond4 closes then
      some .SINGLE_UP
    else if stDown1 closes ∨ stDown2 closes then
      some .SINGLE_DOWN
    else none

/-- Up-day share of the triangle detector: same as `stUpFrac` except that a
series of one bar defaults to 0.5 instead of 0. -/
def triUpFrac (closes : List ℚ) : ℚ :=
  if 1 < closes.length then (upDaysQ closes : ℚ) / ((closes.length - 1 : ℕ) : ℚ) else 0.5

/-- Mean of the first third, `np.mean(xs[:int(len(xs)/3)])` (0 when the slice
is empty; numpy gives NaN, and every decision downstream of such a value is
no-match under both conventions, see `detectTriangle`). -/
def firstThirdMean (xs : List ℚ) : ℚ := meanQ (xs.take (xs.length / 3))

/-- Mean of the last third, `np.mean(xs[-int(len(xs)/3):])`; for lengths below
3 the Python slice `xs[-0:]` is the whole list. -/
def lastThirdMean (xs : List ℚ) : ℚ := meanQ (takeLastPy (xs.length / 3) xs)

/-- Convergence of the high-low spread between the early and late thirds,
shared by the triangle and wedge detectors. -/
def convergenceQ (highs lows : List ℚ) : ℚ :=
  let early := firstThirdMean highs - firstThirdMean lows
  let late := lastThirdMean highs - lastThirdMean lows
  (early - late) / (early + eps)

/-- detect_triangle. -/
def detectTriangle (df : List Bar) (f : Option PatternFeatures) : Option PatternType :=
  match f with
  | none => none
  | some _ =>
    if df = [] then none else
    let closes := closesOf df
    let highs := highsOf df
    let lows := lowsOf df
    if |totalReturnQ closes| > 0.08 ∧ |slopeOverMean closes| > 0.015 then none else
    if triUpFrac closes > 0.55 ∨ triUpFrac closes < 0.45 then none else
    let highSlope := slopeOverMean highs
    let lowSlope := slopeOverMean lows
    let conv := convergenceQ highs lows
    if conv < 0.20 then none else
    if |highSlope| < 0.03 ∧ lowSlope > 0.02 ∧ conv > 0.20 then some .ASC_TRIANGLE else
    if highSlope < -0.02 ∧ |lowSlope| < 0.03 ∧ conv > 0.20 then some .DESC_TRIANGLE else
    if |highSlope| < 0.03 ∧ |lowSlope| < 0.03 ∧ conv > 0.20 then some .SYM_TRIANGLE else
    none

/-- detect_wedge. -/
def detectWedge (df : List Bar) (f : Option PatternFeatures) : Option PatternType :=
  match f with
  | none => none
  | some _ =>
    if df = [] then none else
    let closes := closesOf df
    let highs := highsOf df
    let lows := lowsOf df
    if closes.length < 20 then none else
    let highSlope := slopeOverMean highs
    let lowSlope := slopeOverMean lows
    let conv := convergenceQ highs lows
    if conv < 0.15 then none else
    if highSlope > 0.01 ∧ lowSlope > 0.01 ∧ highSlope < lowSlope ∧ conv > 0.15 then
      some .ASC_WEDGE
    else if highSlope < -0.01 ∧ lowSlope < -0.01 ∧ |lowSlope| < |highSlope| ∧ conv > 0.15 then
      some .DESC_WEDGE
    else none

/-- Rectangle upper bound, `np.percentile(highs, 90)`. -/
def rectUpper (df : List Bar) : ℚ := percentileQ (highsOf df) 90

/-- Rectangle lower bound, `np.percentile(lows, 10)`. -/
def rectLower (df : List Bar) : ℚ := percentileQ (lowsOf df) 10

/-- Share of closes inside the percentile band,
`np.sum((closes >= lower) & (closes <= upper)) / n`. -/
def rectInRangeFrac (df : List Bar) : ℚ :=
  ((closesOf df).countP
      (fun c => decide (rectLower df ≤ c ∧ c ≤ rectUpper df)) : ℚ) /
    ((closesOf df).length : ℚ)

/-- The rectangle volatility test `0.05 < np.std(closes)/(mean + 1e-8) < 0.25`
embedded over `ℚ`: with `m = mean + 1e-8` and `v` the variance (the squared
std), the test holds iff `0 < m` and `(0.05*m)² < v < (0.25*m)²`.  The
equivalence is exact in every sign case (for `m < 0` the quotient is
nonpositive, for `m = 0` numpy gives `inf` or `NaN`, and in all those cases
both sides are false); `rectVolGate_iff_sqrt` proves the bridge against
`Real.sqrt`. -/
def rectVolGate (closes : List ℚ) : Prop :=
  0 < meanQ closes + eps ∧
  (0.05 * (meanQ closes + eps)) ^ 2 < varQ closes ∧
  varQ closes < (0.25 * (meanQ closes + eps)) ^ 2

instance (closes : List ℚ) : Decidable (rectVolGate closes) := by unfold rectVolGate; infer_instance
/-- detect_rectangle.  The unused local `price_range` of the source is
omitted. -/
def detectRectangle (df : List Bar) (f : Option PatternFeatures) : Option PatternType :=
  match f with
  | none => none
  | some _ =>
    if df = [] then none else
    let closes := closesOf df
    if closes.length < 20 then none else
    if rectInRangeFrac df > 0.70 ∧
        |slopeOverMean closes| < 0.01 ∧
        |slopeOverMean (highsOf df)| < 0.015 ∧
        |slopeOverMean (lowsOf df)| < 0.015 ∧
        rectVolGate closes then
      some .RECTANGLE
    else none

/-- Cup end index `int(max(n * 0.7, max_idx + n // 10))`. -/
def cupEnd (n maxIdx : ℕ) : ℕ := max (7 * n / 10) (maxIdx + n / 10)

/-- Cup slice `closes[0:cup_end]`. -/
def cupSlice (closes : List ℚ) : List ℚ :=
  closes.take (cupEnd closes.length (argmaxQ closes))

/-- Cup depth `(cup_max - cup_min) / (cup_max + 1e-8)`. -/
def cupDepth (closes : List ℚ) : ℚ :=
  (maxQ (cupSlice closes) - minQ (cupSlice closes)) / (maxQ (cupSlice closes) + eps)

/-- Handle length `handle_end - handle_start` with
`handle_end = min(n, handle_start + n // 8)` (0 when the cup already covers
the series). -/
def handleLen (closes : List ℚ) : ℕ :=
  let ce := cupEnd closes.length (argmaxQ closes)
  min closes.length (ce + closes.length / 8) - ce

/-- Handle slice `closes[handle_start:handle_end]`. -/
def handleSlice (closes : List ℚ) : List ℚ :=
  (closes.drop (cupEnd closes.length (argmaxQ closes))).take (handleLen closes)

/-- Handle range as a fraction of the cup maximum,
`(handle.max - handle.min) / (cup_max + 1e-8)`. -/
def handleRangeQ (closes : List ℚ) : ℚ :=
  (maxQ (handleSlice closes) - minQ (handleSlice closes)) / (maxQ (cupSlice closes) + eps)

/-- detect_cup_handle. -/
def detectCupHandle (df : List Bar) (f : Option PatternFeatures) : Option PatternType :=
  match f with
  | none => none
  | some _ =>
    if df = [] then none else
    let closes := closesOf df
    let n := closes.length
    if n < 40 then none else
    if argmaxQ closes < 3 * n / 10 ∨ 6 * n / 10 < argmaxQ closes then none else
    if cupDepth closes < 0.15 ∨ cupDepth closes > 0.5 then none else
    if handleLen closes < 5 then none else
    if handleRangeQ closes < 0.02 ∨ handleRangeQ closes > 0.1 then none else
    some .CUP_HANDLE

/-- Extrema window of the head-shoulder detector, `max(3, n // 15)` (the
feature extractor uses `n // 20`; both call sites keep their own formula). -/
def hsWindow (n : ℕ) : ℕ := max 3 (n / 15)

/-- Peak index list of the head-shoulder detector. -/
def hsPeaks (closes : List ℚ) : List ℕ := peakIdx closes (hsWindow closes.length)

/-- Valley index list of the head-shoulder detector. -/
def hsValleys (closes : List ℚ) : List ℕ := valleyIdx closes (hsWindow closes.length)

/-- Positions (within the peak list) of the three highest peaks in descending
height order, `np.argsort(peaks)[::-1][:3]`. -/
def hsTop3 (closes : List ℚ) : List ℕ :=
  let vals := (hsPeaks closes).map (closes.getD · 0)
  ((argsortIdx (fun j => vals.getD j 0) (List.range vals.length)).reverse).take 3

/-- Head-shoulder-top condition: the time indices of the three highest peaks,
in descending height order, are strictly decreasing. -/
def hsTopCond (closes : List ℚ) : Prop :=
  let times := hsPeaks closes
  let s := hsTop3 closes
  times.getD (s.getD 1 0) 0 < times.getD (s.getD 0 0) 0 ∧
  times.getD (s.getD 2 0) 0 < times.getD (s.getD 1 0) 0

instance (closes : List ℚ) : Decidable (hsTopCond closes) := by unfold hsTopCond; infer_instance
/-- Positions of the three lowest valleys in ascending depth order,
`np.argsort(valleys)[:3]`. -/
def hsBottom3 (closes : List ℚ) : List ℕ :=
  let vals := (hsValleys closes).map (closes.getD · 0)
  (argsortIdx (fun j => vals.getD j 0) (List.range vals.length)).take 3

/-- Head-shoulder-bottom condition: the time indices of the three lowest
valleys, in ascending depth order, are strictly decreasing. -/
def hsBottomCond (closes : List ℚ) : Prop :=
  let times := hsValleys closes
  let s := hsBottom3 closes
  times.getD (s.getD 1 0) 0 < times.getD (s.getD 0 0) 0 ∧
  times.getD (s.getD 2 0) 0 < times.getD (s.getD 1 0) 0

instance (closes : List ℚ) : Decidable (hsBottomCond closes) := by unfold hsBottomCond; infer_instance
/-- detect_head_shoulder. -/
def detectHeadShoulder (df : List Bar) (f : Option PatternFeatures) : Option PatternType :=
  match f with
  | none => none
  | some _ =>
    if df = [] then none else
    let closes := closesOf df
    if closes.length < 30 then none else
    if (hsPeaks closes).length < 3 ∨ (hsValleys closes).length < 2 then none else
    if 3 ≤ (hsPeaks closes).length ∧ hsTopCond closes then some .HEAD_SHOULDER_TOP else
    if 3 ≤ (hsValleys closes).length ∧ hsBottomCond closes then some .HEAD_SHOULDER_BOTTOM else
    none

/-- The round-pattern volatility gate `features.volatility > 0.2` embedded
over `ℚ` (see `PatternFeatures` and `rectVolGate` for the convention):
`√varClose / meanEps > 0.2` iff `0 < meanEps` and `(0.2*meanEps)² < varClose`. -/
def roundVolGate (f : PatternFeatures) : Prop :=
  0 < f.meanEps ∧ (0.2 * f.meanEps) ^ 2 < f.varClose

instance (f : PatternFeatures) : Decidable (roundVolGate f) := by unfold roundVolGate; infer_instance
/-- Normalized quadratic coefficient of detect_round_pattern,
`coeffs[0] / (np.mean(closes) + 1e-8) * n * n`. -/
def roundNormQuad (closes : List ℚ) : ℚ :=
  quadCoeff closes / (meanQ closes + eps) * (closes.length : ℚ) * (closes.length : ℚ)

/-- detect_round_pattern. -/
def detectRoundPattern (df : List Bar) (f : Option PatternFeatures) : Option PatternType :=
  match f with
  | none => none
  | some fv =>
    if df = [] then none else
    let closes := closesOf df
    if closes.length < 30 then none else
    if roundVolGate fv then none else
    if roundNormQuad closes < -0.001 ∧ fv.symmetryScore > 0.8 then some .ROUND_TOP else
    if roundNormQuad closes > 0.001 ∧ fv.symmetryScore > 0.8 then some .ROUND_BOTTOM else
    none

/-- First non-null element of a list of optional results (the cascade's
short-circuiting evaluation). -/
def firstSome : List (Option PatternType) → Option PatternType
  | [] => none
  | some x :: _ => some x
  | none :: rest => firstSome rest

/-- The ordered detector cascade applied to a series and its features. -/
def cascade (df : List Bar) (f : Option PatternFeatures) : List (Option PatternType) :=
  [detectSingleTrend df f, detectRectangle df f, detectWedge df f,
   detectTriangle df f, detectCupHandle df f, detectHeadShoulder df f,
   detectRoundPattern df f]

/-- simple_rule_pattern: OTHER for a missing/empty/short (< 20 bars) series or
null features, otherwise the first match of the detector cascade and OTHER as
fallback.  (Python's `if detector_result:` truthiness equals a non-None test
here, since every PatternType code is nonzero.) -/
def simpleRulePattern (df? : Option (List Bar)) : PatternType :=
  match df? with
  | none => .OTHER
  | some df =>
    if df.length < 20 then .OTHER else
    match extractFeatures df with
    | none => .OTHER
    | some f => (firstSome (cascade df (some f))).getD .OTHER

/-- Classification mode. -/
inductive Mode where
  | rule
  | ai
deriving DecidableEq

/-- classify_pattern: the AI mode is an unimplemented placeholder delegating
to the rule engine. -/
def classifyPattern (df? : Option (List Bar)) (_mode : Mode) : PatternType :=
  simpleRulePattern df?

/-- calculate_trend_slope (feature_engineering.py): 0 for fewer than two
points, otherwise the least-squares slope divided by the raw mean — this
divisor carries no `1e-8` guard in the source (in `ℚ` a zero mean gives 0
where numpy would give `inf`/`NaN`). -/
def calculateTrendSlope (closes : List ℚ) : ℚ :=
  if closes.length < 2 then 0 else olsSlope closes / meanQ closes

/-- Spec-side counterpart of `calculateTrendSlope` written from the
specification's words, for comparison: the spec asserts the normalized slope's
divisor is guarded with the additive epsilon `1e-8`. -/
def specTrendSlopeGuarded (closes : List ℚ) : ℚ :=
  if closes.length < 2 then 0 else olsSlope closes / (meanQ closes + eps)

/-- Spec-side counterpart of `totalReturnQ` written from the specification's
words, for comparison: the spec asserts the total-return divisor is guarded
with the additive epsilon `1e-8`. -/
def specTotalReturnGuarded (closes : List ℚ) : ℚ :=
  (lastQ closes - headQ closes) / (headQ closes + eps)

/-- Spec-side counterpart of `stMaxDrawdown` written from the specification's
words, for comparison: a drawdown whose divisor is guarded with the additive
epsilon `1e-8` (the source instead uses a conditional `max > 0` guard). -/
def specDrawdownGuarded (closes : List ℚ) : ℚ :=
  (maxQ closes - minQ closes) / (maxQ closes + eps)

/-- Spec-side counterpart of `stRecentReturn` written from the specification's
words, for comparison: a recent-window return whose divisor is guarded with
the additive epsilon `1e-8`. -/
def specRecentReturnGuarded (closes : List ℚ) : ℚ :=
  if 1 < (stRecent closes).length then
    (lastQ (stRecent closes) - headQ (stRecent closes)) / (headQ (stRecent closes) + eps)
  else 0

/-- Last value of the rolling mean `df['close'].rolling(p).mean()`: the mean
of the last `p` elements when `p ≤ n`.  For `p > n` pandas yields `NaN`,
modelled as 0; the claims settled here do not depend on that value. -/
def lastRollMean (p : ℕ) (xs : List ℚ) : ℚ :=
  if p ≤ xs.length then meanQ (lastN p xs) else 0

/-- Tail of the exponentially weighted mean recursion
`y_t = a*x_t + (1-a)*y_(t-1)` (`ewm(span, adjust=False)`). -/
def ewmaFrom (a prev : ℚ) : List ℚ → List ℚ
  | [] => []
  | y :: ys => (a * y + (1 - a) * prev) :: ewmaFrom a (a * y + (1 - a) * prev) ys

/-- The full exponentially weighted mean series with `a = 2/(span+1)`,
starting from the first element (`adjust=False`). -/
def ewmaList (span : ℕ) (xs : List ℚ) : List ℚ :=
  match xs with
  | [] => []
  | x :: rest => x :: ewmaFrom (2 / ((span : ℚ) + 1)) x rest

/-- MACD DIF series, `ema_12 - ema_26`. -/
def difList (closes : List ℚ) : List ℚ :=
  List.zipWith (fun a b => a - b) (ewmaList 12 closes) (ewmaList 26 closes)

/-- Last value of the MACD histogram, `(dif - dea) * 2` at the last row. -/
def macdHistLast (closes : List ℚ) : ℚ :=
  (lastQ (difList closes) - lastQ (ewmaList 9 (difList closes))) * 2

/-- Per-day gains of the RSI computation: `delta.where(delta > 0, 0)` with the
leading `NaN` of `diff()` replaced by 0, as pandas' `where` does. -/
def rsiGains (closes : List ℚ) : List ℚ :=
  0 :: (diffsQ closes).map (fun d => if 0 < d then d else 0)

/-- Per-day losses of the RSI computation, `(-delta).where(delta < 0, 0)`. -/
def rsiLosses (closes : List ℚ) : List ℚ :=
  0 :: (diffsQ closes).map (fun d => if d < 0 then -d else 0)

/-- Last value of the 14-period RSI, `100 - 100/(1 + rs)` with
`rs = avg_gain / avg_loss` over the last 14 rows.  In `ℚ` a zero average loss
gives `rs = 0` where pandas gives `inf` (rsi 100) or `NaN`; the claims settled
here do not depend on that value. -/
def rsiLast (closes : List ℚ) : ℚ :=
  let g := if 14 ≤ (rsiGains closes).length then meanQ (lastN 14 (rsiGains closes)) else 0
  let l := if 14 ≤ (rsiLosses closes).length then meanQ (lastN 14 (rsiLosses closes)) else 0
  100 - 100 / (1 + g / l)

/-- Slice assignment `v[start:start+len(vals)] = vals` via repeated `List.set`
(every write of the encoder is in bounds, and `List.set` preserves length). -/
def setSlice (v : List ℚ) (start : ℕ) (vals : List ℚ) : List ℚ :=
  vals.enum.foldl (fun w p => w.set (start + p.1) p.2) v

/-- encode_pattern_features: the fixed-length 100-dimensional feature vector.
The all-zero early return covers a missing, empty or short (< 20 bars) frame.
Slot 65 holds the volatility `np.std(closes)/(mean + 1e-8)`, whose value is
irrational; it is represented by the rational `varQ closes` that determines it
(no claim settled here depends on any slot value of the main branch).  The
`highs`/`lows` columns are extracted by the source but feed no slot.  A frame
without a `vol` column behaves exactly like one with an all-zero `vol` column
(both produce an all-zero `90..99` block), so the column is modelled as always
present.  The final `astype(np.float32)` is modelled as the identity. -/
def encodePatternFeatures (df? : Option (List Bar)) : List ℚ :=
  match df? with
  | none => List.replicate 100 0
  | some df =>
    if df.length < 20 then List.replicate 100 0 else
    let closes := closesOf df
    let volumes := volsOf df
    let closesNorm := closes.map (fun c => (c - minQ closes) / (maxQ closes - minQ closes + eps))
    let pIdx := peakIdx closes 5
    let vIdx := valleyIdx closes 5
    let peaks := pIdx.map (closes.getD · 0)
    let valleys := vIdx.map (closes.getD · 0)
    let base := List.replicate 100 (0 : ℚ)
    let v1 := setSlice base 0 (lastN (min 60 closesNorm.length) closesNorm)
    let v2 := if pIdx.length ≠ 0 then
        setSlice v1 60 [(pIdx.length : ℚ) / 10, maxQ peaks / (maxQ closes + eps)]
      else v1
    let v3 := if vIdx.length ≠ 0 then
        setSlice v2 62 [(vIdx.length : ℚ) / 10, minQ valleys / (minQ closes + eps)]
      else v2
    let v4 := setSlice v3 64
      [calculateTrendSlope closes * 100, varQ closes,
       (maxQ closes - minQ closes) / (meanQ closes + eps)]
    let v5 := setSlice v4 74
      ([lastRollMean 5 closes, lastRollMean 10 closes, lastRollMean 20 closes,
        lastRollMean 60 closes].map (fun m => m / (lastQ closes + eps)))
    let v6 := setSlice v5 78 [rsiLast closes / 100, macdHistLast closes / (lastQ closes + eps) * 10]
    if volumes.length ≠ 0 then
      let volNorm := volumes.map (fun x => (x - minQ volumes) / (maxQ volumes - minQ volumes + eps))
      setSlice v6 90 (lastN (min 10 volNorm.length) volNorm)
    else v6

/-- Bar with high/low one unit around the close (concrete test series). -/
def mkBar (c : ℚ) : Bar := ⟨c, c + 1, c - 1, 0⟩

/-- Twenty bars rising by 2 per day: an unambiguous single up-trend. -/
def exUpBars : List Bar := (List.range 20).map (fun i => mkBar (100 + 2 * i))

/-- Three flat bars: below every length gate. -/
def exShortBars : List Bar := [mkBar 100, mkBar 101, mkBar 102]

/-- Half-amplitude of the boundary rectangle series, chosen so that
`std/(mean + 1e-8)` is exactly 0.05: `dd/(100 + 1e-8) = 1/20`. -/
def dd : ℚ := 5 + 5 / 10000000000

/-- Sixty bars alternating `100 ± dd`: every rectangle condition holds except
that the coded volatility test `0.05 < std/(mean+1e-8)` fails by exact
equality. -/
def exVolBoundaryBars : List Bar :=
  (List.range 60).map (fun i => if i % 2 = 0 then mkBar (100 + dd) else mkBar (100 - dd))

/-- Sixty bars alternating `100 ± 7`: a genuine rectangle (volatility 0.07,
strictly inside the band). -/
def exRectBars : List Bar :=
  (List.range 60).map (fun i => if i % 2 = 0 then mkBar 107 else mkBar 93)

/-- Closes of a 30-bar series with three rising spikes on a strictly falling
baseline: three peaks whose height order matches the head-shoulder-top index
condition, but no valley at all. -/
def exHsNoValleyClose (i : ℕ) : ℚ :=
  if i = 5 then 150 else if i = 15 then 160 else if i = 25 then 170 else 100 - i

/-- The 30-bar three-peaks-no-valley series. -/
def exHsNoValleyBars : List Bar := (List.range 30).map (fun i => mkBar (exHsNoValleyClose i))

/-- Closes of a 48-bar cup-and-handle whose cup depth is exactly 0.15 as
coded: minimum `85 - 3/2000000000` at bar 10, maximum 100 at bar 20, handle
bars 33-38 spanning 90..95. -/
def exCupClose (i : ℕ) : ℚ :=
  if i < 10 then 95 - i
  else if i = 10 then 85 - 3 / 2000000000
  else if i < 20 then [86, 88, 90, 92, 94, 96, 97, 98, 99].getD (i - 11) 0
  else if i = 20 then 100
  else if i < 33 then 120 - i
  else if i < 39 then 128 - i
  else 91

/-- The 48-bar boundary cup-and-handle series. -/
def exCupBars : List Bar := (List.range 48).map (fun i => mkBar (exCupClose i))

/-- Closes of a 36-bar genuine head-and-shoulders top: peaks 150, 160, 170 at
bars 6, 17, 28 and valleys at bars 12 and 23. -/
def exHsTopClose (i : ℕ) : ℚ :=
  if i = 6 then 150 else if i = 17 then 160 else if i = 28 then 170 else
  if i ≤ 5 then 100 + i
  else if i ≤ 12 then 112 - i
  else if i ≤ 16 then 88 + i
  else if i ≤ 22 then 122 - i
  else if i = 23 then 98
  else if i ≤ 27 then 75 + i
  else 131 - i

/-- The 36-bar genuine head-and-shoulders series. -/
def exHsTopBars : List Bar := (List.range 36).map (fun i => mkBar (exHsTopClose i))

theorem firstSome_nil : firstSome [] = none := rfl

theorem firstSome_some (x : PatternType) (rest : List (Option PatternType)) :
    firstSome (some x :: rest) = some x := rfl

theorem firstSome_none (rest : List (Option PatternType)) :
    firstSome (none :: rest) = firstSome rest := rfl

/-- Every value of the classifier is a member of the closed enumeration. -/
theorem PatternType.mem_all (p : PatternType) : p ∈ PatternType.all := by
  cases p <;> simp [PatternType.all]

/-- Feature extraction succeeds exactly on series of at least 10 bars. -/
theorem extractFeatures_isSome_iff (df : List Bar) :
    (extractFeatures df).isSome ↔ 10 ≤ df.length := by
  unfold extractFeatures
  split_ifs with h
  · simp; omega
  · simp; omega

/-- List.set preserves length, hence so does slice assignment. -/
theorem setSlice_length (v : List ℚ) (start : ℕ) (vals : List ℚ) :
    (setSlice v start vals).length = v.length := by
  unfold setSlice
  generalize vals.enum = ps
  induction ps generalizing v with
  | nil => rfl
  | cons p ps ih => simpa using ih (v.set (start + p.1) p.2)

/-- Population variance is nonnegative. -/
theorem varQ_nonneg (l : List ℚ) : 0 ≤ varQ l := by
  unfold varQ meanQ
  apply div_nonneg _ (by positivity)
  apply List.sum_nonneg
  intro x hx
  obtain ⟨y, _, rfl⟩ := List.mem_map.mp hx
  positivity

/-- detect_single_trend yields only the single-trend labels. -/
theorem detectSingleTrend_out {df : List Bar} {f : Option PatternFeatures}
    {p : PatternType} (h : detectSingleTrend df f = some p) :
    p = .SINGLE_UP ∨ p = .SINGLE_DOWN := by
  cases f with
  | none => simp [detectSingleTrend] at h
  | some fv =>
    simp only [detectSingleTrend] at h
    split_ifs at h
    all_goals simp_all

/-- detect_rectangle yields only RECTANGLE. -/
theorem detectRectangle_out {df : List Bar} {f : Option PatternFeatures}
    {p : PatternType} (h : detectRectangle df f = some p) : p = .RECTANGLE := by
  cases f with
  | none => simp [detectRectangle] at h
  | some fv =>
    simp only [detectRectangle] at h
    split_ifs at h
    all_goals simp_all

/-- detect_wedge yields only the wedge labels. -/
theorem detectWedge_out {df : List Bar} {f : Option PatternFeatures}
    {p : PatternType} (h : detectWedge df f = some p) :
    p = .ASC_WEDGE ∨ p = .DESC_WEDGE := by
  cases f with
  | none => simp [detectWedge] at h
  | some fv =>
    simp only [detectWedge] at h
    split_ifs at h <;> simp_all

/-- detect_triangle yields only the triangle labels. -/
theorem detectTriangle_out {df : List Bar} {f : Option PatternFeatures}
    {p : PatternType} (h : detectTriangle df f = some p) :
    p = .ASC_TRIANGLE ∨ p = .DESC_TRIANGLE ∨ p = .SYM_TRIANGLE := by
  cases f with
  | none => simp [detectTriangle] at h
  | some fv =>
    simp only [detectTriangle] at h
    split_ifs at h <;> simp_all

/-- detect_cup_handle yields only CUP_HANDLE. -/
theorem detectCupHandle_out {df : List Bar} {f : Option PatternFeatures}
    {p : PatternType} (h : detectCupHandle df f = some p) : p = .CUP_HANDLE := by
  cases f with
  | none => simp [detectCupHandle] at h
  | some fv =>
    simp only [detectCupHandle] at h
    split_ifs at h
    all_goals simp_all

/-- detect_head_shoulder yields only the head-shoulder labels. -/
theorem detectHeadShoulder_out {df : List Bar} {f : Option PatternFeatures}
    {p : PatternType} (h : detectHeadShoulder df f = some p) :
    p = .HEAD_SHOULDER_TOP ∨ p = .HEAD_SHOULDER_BOTTOM := by
  cases f with
  | none => simp [detectHeadShoulder] at h
  | some fv =>
    simp only [detectHeadShoulder] at h
    split_ifs at h <;> simp_all

/-- detect_round_pattern yields only the round labels. -/
theorem detectRoundPattern_out {df : List Bar} {f : Option PatternFeatures}
    {p : PatternType} (h : detectRoundPattern df f = some p) :
    p = .ROUND_TOP ∨ p = .ROUND_BOTTOM := by
  cases f with
  | none => simp [detectRoundPattern] at h
  | some fv =>
    simp only [detectRoundPattern] at h
    split_ifs at h <;> simp_all

/-- The initial accumulator bounds a max-fold from below. -/
theorem le_foldl_max (l : List ℚ) (a : ℚ) : a ≤ l.foldl max a := by
  induction l generalizing a with
  | nil => exact le_rfl
  | cons x xs ih => exact le_trans (le_max_left a x) (ih (max a x))

/-- The initial accumulator bounds a min-fold from above. -/
theorem foldl_min_le (l : List ℚ) (a : ℚ) : l.foldl min a ≤ a := by
  induction l generalizing a with
  | nil => exact le_rfl
  | cons x xs ih => exact le_trans (ih (min a x)) (min_le_left a x)

/-- The minimum never exceeds the maximum (both are 0 on the empty list). -/
theorem minQ_le_maxQ (l : List ℚ) : minQ l ≤ maxQ l :=
  le_trans (foldl_min_le l (l.headD 0)) (le_foldl_max l (l.headD 0))
/-- The drawdown test of the single-trend detector agrees with the
specification's raw formula `(max - min) / max < 0.5` in every case: the
source's `if max > 0` guard only replaces a value that is already nonpositive
(and `ℚ` division by zero is 0 where the raw formula would be ill-defined). -/
theorem stMaxDrawdown_lt_half_iff (closes : List ℚ) :
    stMaxDrawdown closes < 0.50 ↔ (maxQ closes - minQ closes) / maxQ closes < 0.50 := by
  unfold stMaxDrawdown
  split_ifs with h
  · exact Iff.rfl
  · push_neg at h
    rcases lt_or_eq_of_le h with hneg | hzero
    · have hnum : 0 ≤ maxQ closes - minQ closes := by linarith [minQ_le_maxQ closes]
      have hq : (maxQ closes - minQ closes) / maxQ closes ≤ 0 :=
        div_nonpos_iff.mpr (Or.inl ⟨hnum, le_of_lt hneg⟩)
      constructor <;> intro <;> linarith
    · rw [hzero, div_zero]

/-- Real-number form of the squared-threshold encoding of the rectangle's
volatility test (`std = √v`): for nonnegative `v` the encoding is equivalent
in every sign case of the denominator. -/
theorem sqrtBand_iff (v m : ℝ) :
    (0 < m ∧ (0.05 * m) ^ 2 < v ∧ v < (0.25 * m) ^ 2) ↔
      (0.05 < Real.sqrt v / m ∧ Real.sqrt v / m < 0.25) := by
  by_cases hm : 0 < m
  · rw [lt_div_iff₀ hm, div_lt_iff₀ hm]
    constructor
    · rintro ⟨-, h1, h2⟩
      exact ⟨(Real.lt_sqrt (by positivity)).mpr h1, (Real.sqrt_lt' (by positivity)).mpr h2⟩
    · rintro ⟨h1, h2⟩
      exact ⟨hm, (Real.lt_sqrt (by positivity)).mp h1, (Real.sqrt_lt' (by positivity)).mp h2⟩
  · push_neg at hm
    have h0 : Real.sqrt v / m ≤ 0 :=
      div_nonpos_iff.mpr (Or.inl ⟨Real.sqrt_nonneg v, hm⟩)
    constructor
    · rintro ⟨h1, -, -⟩
      exact absurd h1 (not_lt.mpr hm)
    · rintro ⟨h1, -⟩
      exact absurd h1 (not_lt.mpr (h0.trans (by norm_num)))

/-- The rectangle volatility gate is exactly the source's test
`0.05 < np.std(closes)/(mean + 1e-8) < 0.25`, with the std written as the
real square root of the variance. -/
theorem rectVolGate_iff_sqrt (closes : List ℚ) :
    rectVolGate closes ↔
      ((0.05 : ℝ) < Real.sqrt ((varQ closes : ℚ) : ℝ) / ((meanQ closes + eps : ℚ) : ℝ) ∧
        Real.sqrt ((varQ closes : ℚ) : ℝ) / ((meanQ closes + eps : ℚ) : ℝ) < 0.25) := by
  rw [← sqrtBand_iff]
  rw [show (0.05 : ℝ) = ((0.05 : ℚ) : ℝ) from by norm_cast]
  rw [show (0.25 : ℝ) = ((0.25 : ℚ) : ℝ) from by norm_cast]
  unfold rectVolGate
  constructor
  · intro h
    exact_mod_cast h
  · intro h
    exact_mod_cast h

/-- UP condition 1 written with the specification's raw drawdown formula. -/
theorem stCond1_iff_claim (closes : List ℚ) :
    stCond1 closes ↔
      (totalReturnQ closes > 0.08 ∧ slopeOverMean closes > 0.02 ∧
        (maxQ closes - minQ closes) / maxQ closes < 0.50 ∧ stUpFrac closes > 0.45) := by
  unfold stCond1
  rw [stMaxDrawdown_lt_half_iff]

/-- DOWN condition 1 written with the specification's raw drawdown formula. -/
theorem stDown1_iff_claim (closes : List ℚ) :
    stDown1 closes ↔
      (totalReturnQ closes < -0.08 ∧ slopeOverMean closes < -0.02 ∧
        (maxQ closes - minQ closes) / maxQ closes < 0.50 ∧ stUpFrac closes < 0.45) := by
  unfold stDown1
  rw [stMaxDrawdown_lt_half_iff]

/-- Claim C1: for every input — a missing frame, an empty frame, or any frame
of bars — the classifier returns a member of the closed PatternType
enumeration (the embedding is a total function, so no exception is possible),
and every input of fewer than 20 bars (missing and empty inputs included)
yields OTHER. -/
theorem classify_total_and_short (df? : Option (List Bar)) :
    simpleRulePattern df? ∈ PatternType.all ∧
      ((df?.getD []).length < 20 → simpleRulePattern df? = .OTHER) := by
  refine ⟨PatternType.mem_all _, ?_⟩
  intro h
  cases df? with
  | none => rfl
  | some df =>
    simp only [simpleRulePattern]
    rw [if_pos (by simpa using h)]

/-- Witness for C1 at a concrete three-bar series. -/
theorem classify_total_and_short_witness :
    simpleRulePattern (some exShortBars) ∈ PatternType.all ∧
      simpleRulePattern (some exShortBars) = .OTHER :=
  ⟨(classify_total_and_short (some exShortBars)).1,
   (classify_total_and_short (some exShortBars)).2 (by decide)⟩

/-- Claim C2: with at least 20 bars, rule-mode classification is the first
non-null result of the detectors in the strict order single-trend, rectangle,
wedge, triangle, cup-and-handle, head-and-shoulders, round-pattern, with OTHER
as the all-no-match fallback; fewer than 20 bars, a null feature set, or a
missing frame short-circuit to OTHER. -/
theorem classify_cascade (df : List Bar) :
    (20 ≤ df.length →
      classifyPattern (some df) Mode.rule =
        (firstSome
          [detectSingleTrend df (extractFeatures df),
           detectRectangle df (extractFeatures df),
           detectWedge df (extractFeatures df),
           detectTriangle df (extractFeatures df),
           detectCupHandle df (extractFeatures df),
           detectHeadShoulder df (extractFeatures df),
           detectRoundPattern df (extractFeatures df)]).getD .OTHER) ∧
    (df.length < 20 → classifyPattern (some df) Mode.rule = .OTHER) ∧
    (extractFeatures df = none → classifyPattern (some df) Mode.rule = .OTHER) ∧
    classifyPattern none Mode.rule = .OTHER := by
  refine ⟨?_, ?_, ?_, rfl⟩
  · intro h20
    have h10 : 10 ≤ df.length := by omega
    obtain ⟨f, hf⟩ := Option.isSome_iff_exists.mp ((extractFeatures_isSome_iff df).mpr h10)
    simp only [classifyPattern, simpleRulePattern, cascade]
    rw [if_neg (by omega), hf]
  · intro h
    simp only [classifyPattern, simpleRulePattern]
    rw [if_pos h]
  · intro hf
    simp only [classifyPattern, simpleRulePattern]
    split_ifs
    · rfl
    · rw [hf]

/-- Witness for C2 at a concrete rising 20-bar series (classified SINGLE_UP
by the first cascade entry). -/
theorem classify_cascade_witness :
    classifyPattern (some exUpBars) Mode.rule =
      (firstSome
        [detectSingleTrend exUpBars (extractFeatures exUpBars),
         detectRectangle exUpBars (extractFeatures exUpBars),
         detectWedge exUpBars (extractFeatures exUpBars),
         detectTriangle exUpBars (extractFeatures exUpBars),
         detectCupHandle exUpBars (extractFeatures exUpBars),
         detectHeadShoulder exUpBars (extractFeatures exUpBars),
         detectRoundPattern exUpBars (extractFeatures exUpBars)]).getD .OTHER :=
  (classify_cascade exUpBars).1 (by decide)

/-- Claim C3: on a non-empty series with a non-null FeatureSet, the
single-trend detector returns SINGLE_UP iff one of exactly four UP conditions
holds, otherwise SINGLE_DOWN iff one of exactly two mirrored DOWN conditions
holds (no DOWN counterparts of UP conditions 3 and 4), otherwise no-match.
Condition 1 and DOWN condition 1 are written with the specification's raw
drawdown formula `(max - min)/max`. -/
theorem singleTrend_characterization (df : List Bar) (f : PatternFeatures)
    (h : df ≠ []) :
    (detectSingleTrend df (some f) = some .SINGLE_UP ↔
      ((totalReturnQ (closesOf df) > 0.08 ∧ slopeOverMean (closesOf df) > 0.02 ∧
          (maxQ (closesOf df) - minQ (closesOf df)) / maxQ (closesOf df) < 0.50 ∧
          stUpFrac (closesOf df) > 0.45) ∨
        stCond2 (closesOf df) ∨ stCond3 (closesOf df) ∨ stCond4 (closesOf df))) ∧
    (detectSingleTrend df (some f) = some .SINGLE_DOWN ↔
      (¬((totalReturnQ (closesOf df) > 0.08 ∧ slopeOverMean (closesOf df) > 0.02 ∧
            (maxQ (closesOf df) - minQ (closesOf df)) / maxQ (closesOf df) < 0.50 ∧
            stUpFrac (closesOf df) > 0.45) ∨
          stCond2 (closesOf df) ∨ stCond3 (closesOf df) ∨ stCond4 (closesOf df)) ∧
        ((totalReturnQ (closesOf df) < -0.08 ∧ slopeOverMean (closesOf df) < -0.02 ∧
            (maxQ (closesOf df) - minQ (closesOf df)) / maxQ (closesOf df) < 0.50 ∧
            stUpFrac (closesOf df) < 0.45) ∨
          stDown2 (closesOf df)))) ∧
    (detectSingleTrend df (some f) = none ↔
      (¬((totalReturnQ (closesOf df) > 0.08 ∧ slopeOverMean (closesOf df) > 0.02 ∧
            (maxQ (closesOf df) - minQ (closesOf df)) / maxQ (closesOf df) < 0.50 ∧
            stUpFrac (closesOf df) > 0.45) ∨
          stCond2 (closesOf df) ∨ stCond3 (closesOf df) ∨ stCond4 (closesOf df)) ∧
        ¬((totalReturnQ (closesOf df) < -0.08 ∧ slopeOverMean (closesOf df) < -0.02 ∧
            (maxQ (closesOf df) - minQ (closesOf df)) / maxQ (closesOf df) < 0.50 ∧
            stUpFrac (closesOf df) < 0.45) ∨
          stDown2 (closesOf df)))) := by
  rw [← stCond1_iff_claim, ← stDown1_iff_claim]
  simp only [detectSingleTrend]
  rw [if_neg h]
  split_ifs with hU hD <;> simp_all

/-- Witness for C3: the rising 20-bar series satisfies an UP condition and is
detected SINGLE_UP. -/
theorem singleTrend_characterization_witness :
    detectSingleTrend exUpBars (some dummyFeatures) = some .SINGLE_UP :=
  ((singleTrend_characterization exUpBars dummyFeatures (by decide)).1).mpr (by decide)

/-- A non-null first element of the short-circuiting cascade fold is a member
of the list. -/
theorem firstSome_eq_some_mem :
    ∀ {l : List (Option PatternType)} {p : PatternType},
      firstSome l = some p → some p ∈ l := by
  intro l
  induction l with
  | nil => intro p h; exact Option.noConfusion h
  | cons x rest ih =>
    intro p h
    cases x with
    | some y =>
      rw [firstSome_some] at h
      rw [← h]
      exact List.mem_cons_self _ _
    | none =>
      rw [firstSome_none] at h
      exact List.mem_cons_of_mem _ (ih h)

/-- The cascade's value is either a detector's non-null output in the list or
the OTHER fallback. -/
theorem firstSome_getD_cases (l : List (Option PatternType)) (p : PatternType)
    (h : (firstSome l).getD .OTHER = p) : some p ∈ l ∨ p = .OTHER := by
  cases hf : firstSome l with
  | none => rw [hf] at h; exact Or.inr h.symm
  | some q =>
    rw [hf] at h
    simp only [Option.getD_some] at h
    subst h
    exact Or.inl (firstSome_eq_some_mem hf)

/-- A triangle label can reach the classifier output only through the triangle
detector. -/
theorem classify_triangle_via (df : List Bar) {p : PatternType}
    (hp : p = .ASC_TRIANGLE ∨ p = .DESC_TRIANGLE ∨ p = .SYM_TRIANGLE)
    (hc : simpleRulePattern (some df) = p) :
    detectTriangle df (extractFeatures df) = some p := by
  by_cases h20 : df.length < 20
  · simp only [simpleRulePattern] at hc
    rw [if_pos h20] at hc
    rcases hp with rfl | rfl | rfl <;> simp_all
  · have h10 : 10 ≤ df.length := by omega
    obtain ⟨f, hf⟩ := Option.isSome_iff_exists.mp ((extractFeatures_isSome_iff df).mpr h10)
    simp only [simpleRulePattern] at hc
    rw [if_neg h20, hf] at hc
    rcases firstSome_getD_cases _ _ hc with hmem | rfl
    · simp only [cascade, List.mem_cons, List.not_mem_nil, or_false] at hmem
      rw [hf]
      rcases hmem with h1 | h2 | h3 | h4 | h5 | h6 | h7
      · rcases detectSingleTrend_out h1.symm with rfl | rfl <;>
          rcases hp with h | h | h <;> simp_all
      · have := detectRectangle_out h2.symm
        rcases hp with h | h | h <;> simp_all
      · rcases detectWedge_out h3.symm with rfl | rfl <;>
          rcases hp with h | h | h <;> simp_all
      · exact h4.symm
      · have := detectCupHandle_out h5.symm
        rcases hp with h | h | h <;> simp_all
      · rcases detectHeadShoulder_out h6.symm with rfl | rfl <;>
          rcases hp with h | h | h <;> simp_all
      · rcases detectRoundPattern_out h7.symm with rfl | rfl <;>
          rcases hp with h | h | h <;> simp_all
    · rcases hp with h | h | h <;> simp_all

/-- The triangle detector's two disqualification gates: a series that looks
like a single trend, or whose up-day share leaves `[0.45, 0.55]`, is never a
triangle. -/
theorem detectTriangle_none_of_disq (df : List Bar) (f : Option PatternFeatures)
    (h : (0.08 < |totalReturnQ (closesOf df)| ∧ 0.015 < |slopeOverMean (closesOf df)|) ∨
      triUpFrac (closesOf df) < 0.45 ∨ 0.55 < triUpFrac (closesOf df)) :
    detectTriangle df f = none := by
  cases f with
  | none => rfl
  | some fv =>
    simp only [detectTriangle]
    split_ifs <;> first | rfl | (exfalso; tauto)

/-- Claim C4: if the series looks like a single trend (|total_return| > 0.08
and |normalized_slope| > 0.015) or its up-day share leaves the closed interval
[0.45, 0.55], the triangle detector returns no-match, and consequently the
classifier never returns any triangle subtype for such a series. -/
theorem triangle_disqualification (df : List Bar) (f : Option PatternFeatures)
    (h : (0.08 < |totalReturnQ (closesOf df)| ∧ 0.015 < |slopeOverMean (closesOf df)|) ∨
      triUpFrac (closesOf df) < 0.45 ∨ 0.55 < triUpFrac (closesOf df)) :
    detectTriangle df f = none ∧
      ∀ t : PatternType,
        t = .ASC_TRIANGLE ∨ t = .DESC_TRIANGLE ∨ t = .SYM_TRIANGLE →
        simpleRulePattern (some df) ≠ t := by
  refine ⟨detectTriangle_none_of_disq df f h, ?_⟩
  intro t ht hc
  have htri := classify_triangle_via df ht hc
  rw [detectTriangle_none_of_disq df (extractFeatures df) h] at htri
  exact Option.noConfusion htri

/-- Witness for C4: the monotonically rising 20-bar series (up-day share 1)
is rejected by the triangle detector and classified as no triangle. -/
theorem triangle_disqualification_witness :
    detectTriangle exUpBars (some dummyFeatures) = none ∧
      simpleRulePattern (some exUpBars) ≠ .ASC_TRIANGLE ∧
      simpleRulePattern (some exUpBars) ≠ .DESC_TRIANGLE ∧
      simpleRulePattern (some exUpBars) ≠ .SYM_TRIANGLE := by
  have h := triangle_disqualification exUpBars (some dummyFeatures) (by decide)
  exact ⟨h.1, h.2 _ (Or.inl rfl), h.2 _ (Or.inr (Or.inl rfl)), h.2 _ (Or.inr (Or.inr rfl))⟩

/-- Length of the close column equals the number of bars. -/
theorem closesOf_length (df : List Bar) : (closesOf df).length = df.length :=
  List.length_map df Bar.close

/-- Counterexample to claim C5: the total-return, trend-slope, drawdown and
recent-return divisions of the source are not `+1e-8`-guarded — at concrete
inputs each computed value differs from the value the claimed guarded formula
would give. -/
theorem epsilonGuard_counterexample :
    totalReturnQ [100, 108] = 0.08 ∧
    specTotalReturnGuarded [100, 108] ≠ 0.08 ∧
    calculateTrendSlope [1, 3] = 1 ∧
    specTrendSlopeGuarded [1, 3] ≠ 1 ∧
    stMaxDrawdown [100, 50] = 0.5 ∧
    specDrawdownGuarded [100, 50] ≠ 0.5 ∧
    stRecentReturn [1, 1, 1, 1, 1, 1, 1, 1, 1, 2] = 1 ∧
    specRecentReturnGuarded [1, 1, 1, 1, 1, 1, 1, 1, 1, 2] ≠ 1 := by decide

/-- Claim C5 as amended: the `+1e-8` guard is applied to the mean-close
denominators (as in the extract_features fields shown), but the single-trend
total return and recent return divide by the raw first close, the drawdown by
the raw maximum under a conditional positivity guard, and
calculate_trend_slope by the raw mean with no epsilon. -/
theorem epsilonGuard_amended (df : List Bar) (h10 : 10 ≤ df.length) :
    (extractFeatures df).map PatternFeatures.meanEps =
      some (meanQ (closesOf df) + eps) ∧
    (extractFeatures df).map PatternFeatures.trendSlope =
      some (olsSlope (closesOf df) / (meanQ (closesOf df) + eps)) ∧
    (extractFeatures df).map PatternFeatures.priceRange =
      some ((maxQ (closesOf df) - minQ (closesOf df)) / (meanQ (closesOf df) + eps)) ∧
    totalReturnQ (closesOf df) =
      (lastQ (closesOf df) - headQ (closesOf df)) / headQ (closesOf df) ∧
    stMaxDrawdown (closesOf df) =
      (if 0 < maxQ (closesOf df) then
        (maxQ (closesOf df) - minQ (closesOf df)) / maxQ (closesOf df)
      else 0) ∧
    stRecentReturn (closesOf df) =
      (if 1 < (stRecent (closesOf df)).length then
        (lastQ (stRecent (closesOf df)) - headQ (stRecent (closesOf df))) /
          headQ (stRecent (closesOf df))
      else 0) ∧
    (2 ≤ df.length →
      calculateTrendSlope (closesOf df) = olsSlope (closesOf df) / meanQ (closesOf df)) := by
  unfold extractFeatures
  rw [if_neg (by omega)]
  refine ⟨rfl, rfl, rfl, rfl, rfl, rfl, fun h2 => ?_⟩
  unfold calculateTrendSlope
  rw [if_neg (by rw [closesOf_length]; omega)]

/-- Witness for the amended C5 at the rising 20-bar series. -/
theorem epsilonGuard_amended_witness :
    (extractFeatures exUpBars).map PatternFeatures.meanEps =
      some (meanQ (closesOf exUpBars) + eps) ∧
    totalReturnQ (closesOf exUpBars) =
      (lastQ (closesOf exUpBars) - headQ (closesOf exUpBars)) / headQ (closesOf exUpBars) :=
  ⟨(epsilonGuard_amended exUpBars (by decide)).1,
   (epsilonGuard_amended exUpBars (by decide)).2.2.2.1⟩

/-- Counterexample to claim C6: at the boundary series the coded volatility
`std/(mean + 1e-8)` equals 0.05 exactly, every other rectangle condition
holds (60 bars, all closes in the percentile band, all three slopes flat), yet
the detector returns no-match — so 0.05 is excluded, not included. -/
theorem rectangle_boundary_counterexample :
    detectRectangle exVolBoundaryBars (extractFeatures exVolBoundaryBars) = none ∧
    (closesOf exVolBoundaryBars).length = 60 ∧
    rectInRangeFrac exVolBoundaryBars > 0.70 ∧
    |slopeOverMean (closesOf exVolBoundaryBars)| < 0.01 ∧
    |slopeOverMean (highsOf exVolBoundaryBars)| < 0.015 ∧
    |slopeOverMean (lowsOf exVolBoundaryBars)| < 0.015 ∧
    (0.05 : ℝ) ≤ Real.sqrt ((varQ (closesOf exVolBoundaryBars) : ℚ) : ℝ) /
      ((meanQ (closesOf exVolBoundaryBars) + eps : ℚ) : ℝ) ∧
    Real.sqrt ((varQ (closesOf exVolBoundaryBars) : ℚ) : ℝ) /
      ((meanQ (closesOf exVolBoundaryBars) + eps : ℚ) : ℝ) < 0.25 := by
  have hv : varQ (closesOf exVolBoundaryBars) = dd ^ 2 := by decide
  have hm : meanQ (closesOf exVolBoundaryBars) + eps = 100 + eps := by decide
  have hdd : (0 : ℚ) ≤ dd := by decide
  have hq : dd / (100 + eps) = 1 / 20 := by decide
  have hsq : Real.sqrt ((varQ (closesOf exVolBoundaryBars) : ℚ) : ℝ) = ((dd : ℚ) : ℝ) := by
    rw [hv]
    push_cast
    exact Real.sqrt_sq (by exact_mod_cast hdd)
  have hdiv : ((dd : ℚ) : ℝ) / ((100 + eps : ℚ) : ℝ) = 1 / 20 := by
    rw [← Rat.cast_div, hq]
    norm_num
  refine ⟨by decide, by decide, by decide, by decide, by decide, by decide, ?_, ?_⟩
  · rw [hsq, hm, hdiv]
    norm_num
  · rw [hsq, hm, hdiv]
    norm_num

/-- Claim C6 as amended: the rectangle detector fires iff the series has at
least 20 bars, more than 70% of closes lie in the percentile band, the three
normalized slopes are flat, and the volatility `std/(mean + 1e-8)` lies
strictly between 0.05 and 0.25 (both bounds exclusive, as coded). -/
theorem rectangle_characterization (df : List Bar) :
    detectRectangle df (extractFeatures df) = some .RECTANGLE ↔
      (20 ≤ df.length ∧ rectInRangeFrac df > 0.70 ∧
        |slopeOverMean (closesOf df)| < 0.01 ∧
        |slopeOverMean (highsOf df)| < 0.015 ∧
        |slopeOverMean (lowsOf df)| < 0.015 ∧
        ((0.05 : ℝ) < Real.sqrt ((varQ (closesOf df) : ℚ) : ℝ) /
            ((meanQ (closesOf df) + eps : ℚ) : ℝ) ∧
          Real.sqrt ((varQ (closesOf df) : ℚ) : ℝ) /
            ((meanQ (closesOf df) + eps : ℚ) : ℝ) < 0.25)) := by
  rw [← rectVolGate_iff_sqrt]
  by_cases h10 : df.length < 10
  · have hf : extractFeatures df = none := by
      unfold extractFeatures
      rw [if_pos h10]
    rw [hf]
    show (none : Option PatternType) = some .RECTANGLE ↔ _
    constructor
    · intro h
      exact Option.noConfusion h
    · rintro ⟨h20, -⟩
      omega
  · obtain ⟨f, hf⟩ := Option.isSome_iff_exists.mp
      ((extractFeatures_isSome_iff df).mpr (by omega))
    have hne : df ≠ [] := by
      intro e
      subst e
      simp at h10
    rw [hf]
    simp only [detectRectangle]
    rw [if_neg hne]
    split_ifs with hlt hcond
    · constructor
      · intro h
        exact h.elim
      · rintro ⟨h20, -⟩
        rw [closesOf_length] at hlt
        omega
    · simp only [true_iff, iff_true]
      constructor
      · rw [closesOf_length] at hlt
        omega
      · exact hcond
    · constructor
      · intro h
        exact h.elim
      · rintro ⟨-, hc⟩
        exact hcond hc

/-- Witness for the amended C6: a genuine rectangle series (closes
alternating 107/93, volatility 0.07) is detected RECTANGLE. -/
theorem rectangle_characterization_witness :
    detectRectangle exRectBars (extractFeatures exRectBars) = some .RECTANGLE := by
  rw [rectangle_characterization]
  have hv : varQ (closesOf exRectBars) = 49 := by decide
  have hm : meanQ (closesOf exRectBars) + eps = 100 + eps := by decide
  have hsq : Real.sqrt ((varQ (closesOf exRectBars) : ℚ) : ℝ) = 7 := by
    rw [hv]
    rw [show ((49 : ℚ) : ℝ) = (7 : ℝ) ^ 2 by norm_num]
    exact Real.sqrt_sq (by norm_num)
  have hme : ((100 + eps : ℚ) : ℝ) = 100 + 1 / 100000000 := by
    unfold eps
    push_cast
    norm_num
  refine ⟨by decide, by decide, by decide, by decide, by decide, ?_, ?_⟩
  · rw [hsq, hm, hme]
    norm_num
  · rw [hsq, hm, hme]
    norm_num

/-- Counterexample to claim C7: a 30-bar series with three peaks whose
height-sorted time indices are strictly decreasing — the claimed TOP condition
— yet the detector returns no-match, because the series has no valley and the
source also gates on at least 2 valleys (claim C7 omits that gate). -/
theorem headShoulder_gate_counterexample :
    detectHeadShoulder exHsNoValleyBars (extractFeatures exHsNoValleyBars) = none ∧
    30 ≤ (closesOf exHsNoValleyBars).length ∧
    3 ≤ (hsPeaks (closesOf exHsNoValleyBars)).length ∧
    hsTopCond (closesOf exHsNoValleyBars) ∧
    (hsValleys (closesOf exHsNoValleyBars)).length = 0 := by decide

/-- Claim C7 as amended: with window `max(3, n/15)`, the detector returns
HEAD_SHOULDER_TOP iff the series has at least 30 bars, at least 3 peaks AND at
least 2 valleys, and the three highest peaks' time indices (in descending
height order) strictly decrease; evaluated top before bottom, it returns
HEAD_SHOULDER_BOTTOM iff additionally to the gates the top condition fails,
there are at least 3 valleys, and the three lowest valleys' time indices (in
ascending depth order) strictly decrease. -/
theorem headShoulder_characterization (df : List Bar) :
    (detectHeadShoulder df (extractFeatures df) = some .HEAD_SHOULDER_TOP ↔
      (30 ≤ df.length ∧ 3 ≤ (hsPeaks (closesOf df)).length ∧
        2 ≤ (hsValleys (closesOf df)).length ∧ hsTopCond (closesOf df))) ∧
    (detectHeadShoulder df (extractFeatures df) = some .HEAD_SHOULDER_BOTTOM ↔
      (30 ≤ df.length ∧ 3 ≤ (hsPeaks (closesOf df)).length ∧
        3 ≤ (hsValleys (closesOf df)).length ∧ ¬hsTopCond (closesOf df) ∧
        hsBottomCond (closesOf df))) := by
  by_cases h10 : df.length < 10
  · have hf : extractFeatures df = none := by
      unfold extractFeatures
      rw [if_pos h10]
    rw [hf]
    constructor
    · show (none : Option PatternType) = some .HEAD_SHOULDER_TOP ↔ _
      constructor
      · intro h
        exact Option.noConfusion h
      · rintro ⟨h30, -⟩
        omega
    · show (none : Option PatternType) = some .HEAD_SHOULDER_BOTTOM ↔ _
      constructor
      · intro h
        exact Option.noConfusion h
      · rintro ⟨h30, -⟩
        omega
  · obtain ⟨f, hf⟩ := Option.isSome_iff_exists.mp
      ((extractFeatures_isSome_iff df).mpr (by omega))
    have hne : df ≠ [] := by
      intro e
      subst e
      simp at h10
    rw [hf]
    simp only [detectHeadShoulder]
    rw [if_neg hne]
    rw [closesOf_length]
    split_ifs with h30 hgate htop hbot <;>
      constructor <;> constructor <;> intro h <;>
      first
        | exact h.elim
        | (exfalso; omega)
        | (exfalso; push_neg at hgate; tauto)
        | (exfalso; tauto)
        | (refine ⟨by omega, ?_, ?_, ?_⟩ <;> tauto)
        | (refine ⟨by omega, ?_, ?_, ?_, ?_⟩ <;> tauto)
        | rfl
        | simp_all

/-- Witness for the amended C7: a genuine 36-bar head-and-shoulders top
(peaks 150/160/170 at bars 6/17/28, valleys at 12 and 23) is detected. -/
theorem headShoulder_characterization_witness :
    detectHeadShoulder exHsTopBars (extractFeatures exHsTopBars) =
      some .HEAD_SHOULDER_TOP :=
  ((headShoulder_characterization exHsTopBars).1).mpr (by decide)

/-- Counterexample to claim C8: at the boundary cup series the cup depth is
exactly 0.15 — outside the claimed open interval (0.15, 0.5) — yet the
detector returns CUP_HANDLE, so the coded bounds are closed, not open. -/
theorem cupHandle_boundary_counterexample :
    detectCupHandle exCupBars (extractFeatures exCupBars) = some .CUP_HANDLE ∧
    cupDepth (closesOf exCupBars) = 0.15 := by decide

/-- Claim C8 as amended: the detector returns CUP_HANDLE iff the series has at
least 40 bars, the argmax of the closes lies in the closed integer interval
`[⌊0.3n⌋, ⌊0.6n⌋]`, the cup depth lies in the closed interval [0.15, 0.5], the
handle has at least 5 bars, and the handle range lies in the closed interval
[0.02, 0.1]. -/
theorem cupHandle_characterization (df : List Bar) :
    detectCupHandle df (extractFeatures df) = some .CUP_HANDLE ↔
      (40 ≤ df.length ∧
        3 * df.length / 10 ≤ argmaxQ (closesOf df) ∧
        argmaxQ (closesOf df) ≤ 6 * df.length / 10 ∧
        0.15 ≤ cupDepth (closesOf df) ∧ cupDepth (closesOf df) ≤ 0.5 ∧
        5 ≤ handleLen (closesOf df) ∧
        0.02 ≤ handleRangeQ (closesOf df) ∧ handleRangeQ (closesOf df) ≤ 0.1) := by
  by_cases h10 : df.length < 10
  · have hf : extractFeatures df = none := by
      unfold extractFeatures
      rw [if_pos h10]
    rw [hf]
    show (none : Option PatternType) = some .CUP_HANDLE ↔ _
    constructor
    · intro h
      exact Option.noConfusion h
    · rintro ⟨h40, -⟩
      omega
  · obtain ⟨f, hf⟩ := Option.isSome_iff_exists.mp
      ((extractFeatures_isSome_iff df).mpr (by omega))
    have hne : df ≠ [] := by
      intro e
      subst e
      simp at h10
    rw [hf]
    simp only [detectCupHandle]
    rw [if_neg hne]
    rw [closesOf_length]
    split_ifs with h40 hmax hdepth hlen hrange <;>
      constructor <;> intro h <;>
      first
        | exact h.elim
        | (exfalso; omega)
        | (exfalso; push_neg at hmax; omega)
        | (exfalso;
           rcases h with ⟨-, -, -, h4, h5, -, -, -⟩;
           rcases hdepth with hd | hd <;> [exact absurd h4 (not_le.mpr hd); exact absurd h5 (not_le.mpr hd)])
        | (exfalso; rcases h with ⟨-, -, -, -, -, h6, -, -⟩; omega)
        | (exfalso;
           rcases h with ⟨-, -, -, -, -, -, h7, h8⟩;
           rcases hrange with hr | hr <;> [exact absurd h7 (not_le.mpr hr); exact absurd h8 (not_le.mpr hr)])
        | (push_neg at hmax hdepth hrange;
           exact ⟨by omega, hmax.1, hmax.2, hdepth.1, hdepth.2, by omega, hrange.1, hrange.2⟩)
        | rfl

/-- Witness for the amended C8: the boundary cup series satisfies every
closed-interval condition. -/
theorem cupHandle_characterization_witness :
    40 ≤ exCupBars.length ∧
      3 * exCupBars.length / 10 ≤ argmaxQ (closesOf exCupBars) ∧
      argmaxQ (closesOf exCupBars) ≤ 6 * exCupBars.length / 10 ∧
      0.15 ≤ cupDepth (closesOf exCupBars) ∧ cupDepth (closesOf exCupBars) ≤ 0.5 ∧
      5 ≤ handleLen (closesOf exCupBars) ∧
      0.02 ≤ handleRangeQ (closesOf exCupBars) ∧ handleRangeQ (closesOf exCupBars) ≤ 0.1 :=
  (cupHandle_characterization exCupBars).mp (by decide)

/-- Claim C9: encode_pattern_features always yields a vector of length exactly
100, and yields the all-zero vector whenever the input is missing, empty, or
has fewer than 20 bars. -/
theorem encode_length_and_zero (df? : Option (List Bar)) :
    (encodePatternFeatures df?).length = 100 ∧
      ((df?.getD []).length < 20 → encodePatternFeatures df? = List.replicate 100 0) := by
  constructor
  · cases df? with
    | none => simp [encodePatternFeatures]
    | some df =>
      simp only [encodePatternFeatures]
      split_ifs <;> simp [setSlice_length]
  · intro h
    cases df? with
    | none => rfl
    | some df =>
      simp only [encodePatternFeatures]
      rw [if_pos (by simpa using h)]

/-- Witness for C9 at a concrete three-bar series. -/
theorem encode_length_and_zero_witness :
    (encodePatternFeatures (some exShortBars)).length = 100 ∧
      encodePatternFeatures (some exShortBars) = List.replicate 100 0 :=
  ⟨(encode_length_and_zero (some exShortBars)).1,
   (encode_length_and_zero (some exShortBars)).2 (by decide)⟩

/-- Claim C10: the head-and-shoulders detector yields a non-null label only
when the series has at least 3 peaks and at least 2 valleys under the window
`max(3, n/15)`; in particular HEAD_SHOULDER_BOTTOM is never returned when
there are fewer than 3 peaks, regardless of the valleys. -/
theorem headShoulder_gates (df : List Bar) (f : Option PatternFeatures) :
    (detectHeadShoulder df f ≠ none →
      3 ≤ (hsPeaks (closesOf df)).length ∧ 2 ≤ (hsValleys (closesOf df)).length) ∧
    ((hsPeaks (closesOf df)).length < 3 →
      detectHeadShoulder df f ≠ some .HEAD_SHOULDER_BOTTOM) := by
  constructor
  · intro h
    cases f with
    | none => exact absurd rfl h
    | some fv =>
      simp only [detectHeadShoulder] at h
      split_ifs at h with h1 h2 h3 h4 h5
      · exact absurd rfl h
      · exact absurd rfl h
      · exact absurd rfl h
      · push_neg at h3
        omega
      · push_neg at h3
        omega
      · exact absurd rfl h
  · intro hP h
    cases f with
    | none => exact Option.noConfusion h
    | some fv =>
      simp only [detectHeadShoulder] at h
      split_ifs at h with h1 h2 h3 h4 h5 <;>
        first
          | exact Option.noConfusion h
          | exact absurd (Option.some.inj h) (by decide)
          | (push_neg at h3; omega)

/-- Witness for C10: the genuine head-and-shoulders series is detected
(non-null), so its gates hold. -/
theorem headShoulder_gates_witness :
    3 ≤ (hsPeaks (closesOf exHsTopBars)).length ∧
      2 ≤ (hsValleys (closesOf exHsTopBars)).length :=
  (headShoulder_gates exHsTopBars (extractFeatures exHsTopBars)).1 (by decide)

/-- The round-pattern volatility gate is exactly the source's test
`features.volatility > 0.2`, with the volatility written as
`√varClose / meanEps` over the reals (see `PatternFeatures`). -/
theorem roundVolGate_iff_sqrt (f : PatternFeatures) :
    roundVolGate f ↔
      (0.2 : ℝ) < Real.sqrt ((f.varClose : ℚ) : ℝ) / ((f.meanEps : ℚ) : ℝ) := by
  unfold roundVolGate
  by_cases hm : (0 : ℝ) < ((f.meanEps : ℚ) : ℝ)
  · rw [lt_div_iff₀ hm]
    constructor
    · rintro ⟨-, h⟩
      have h2 : (((0.2 : ℚ) : ℝ) * ((f.meanEps : ℚ) : ℝ)) ^ 2 < ((f.varClose : ℚ) : ℝ) := by
        exact_mod_cast h
      rw [show ((0.2 : ℚ) : ℝ) = (0.2 : ℝ) from by norm_cast] at h2
      have := (Real.lt_sqrt (by positivity : (0:ℝ) ≤ 0.2 * ((f.meanEps : ℚ) : ℝ))).mpr h2
      linarith
    · intro h
      refine ⟨by exact_mod_cast hm, ?_⟩
      have h2 := (Real.lt_sqrt (by positivity : (0:ℝ) ≤ 0.2 * ((f.meanEps : ℚ) : ℝ))).mp h
      rw [show (0.2 : ℝ) = ((0.2 : ℚ) : ℝ) from by norm_cast] at h2
      exact_mod_cast h2
  · push_neg at hm
    have h0 : Real.sqrt ((f.varClose : ℚ) : ℝ) / ((f.meanEps : ℚ) : ℝ) ≤ 0 :=
      div_nonpos_iff.mpr (Or.inl ⟨Real.sqrt_nonneg _, hm⟩)
    constructor
    · rintro ⟨h1, -⟩
      exact absurd (by exact_mod_cast h1 : (0:ℝ) < ((f.meanEps : ℚ) : ℝ)) (not_lt.mpr hm)
    · intro h
      exact absurd h (not_lt.mpr (h0.trans (by norm_num)))
